import Mathlib

/-!
Shallow embedding of the Checkout-core retry engine, webhook pipeline and
event emitter, together with proofs of the specified properties.

Conventions of the embedding:
* JavaScript numbers that carry durations and backoff factors are modelled
  as exact rationals (`ℚ`); `maxAttempts` is modelled as `Int` so that the
  out-of-contract values 0 and below remain expressible.
* Each `emitEvent` call site of the retry engine is mirrored by one
  constructor of `REvent`, carrying the payload fields the properties are
  about (attempt numbers, delays, errors, results).  Likewise `WEvent` for
  the webhook pipeline.
* An operation's `execute` is modelled as a function from the (1-based)
  invocation number to `Except E T`: invocation `n` yields the outcome of
  the n-th call.
* A thrown value is `Except.error`; `executeWithRetry`'s trailing
  `throw lastError!` can throw an undefined `lastError`, so its error type
  is `Option E` (`none` = `undefined`).
-/

namespace CheckoutCore

/-- `RetryConfig` from `src/retry/types`: `{maxAttempts, initialDelay,
maxDelay, backoffFactor, strategy}`. -/
structure RetryConfig where
  maxAttempts : Int
  initialDelay : ℚ
  maxDelay : ℚ
  backoffFactor : ℚ
  strategy : String
deriving DecidableEq

/-- A caller-supplied partial config, as accepted by the `RetryService`
constructor (`config?: Partial<RetryConfig>`); `none` is an absent field. -/
structure PartialRetryConfig where
  maxAttempts : Option Int
  initialDelay : Option ℚ
  maxDelay : Option ℚ
  backoffFactor : Option ℚ
  strategy : Option String
deriving DecidableEq

/-- JavaScript `v || d` on an optional integer field: `0` is falsy. -/
def jsOrInt (v : Option Int) (d : Int) : Int :=
  match v with
  | some x => if x = 0 then d else x
  | none => d

/-- JavaScript `v || d` on an optional rational field: `0` is falsy. -/
def jsOrRat (v : Option ℚ) (d : ℚ) : ℚ :=
  match v with
  | some x => if x = 0 then d else x
  | none => d

/-- JavaScript `v || d` on an optional string field: `''` is falsy. -/
def jsOrStr (v : Option String) (d : String) : String :=
  match v with
  | some x => if x = "" then d else x
  | none => d

/-- The `RetryService` constructor: each field is defaulted with `||`, and
then the trailing `...config` spread re-applies every field the caller
actually supplied — including falsy ones such as `maxAttempts: 0`. -/
def mkRetryConfig (c : PartialRetryConfig) : RetryConfig :=
  let base : RetryConfig :=
    { maxAttempts := jsOrInt c.maxAttempts 3
      initialDelay := jsOrRat c.initialDelay 1000
      maxDelay := jsOrRat c.maxDelay 60000
      backoffFactor := jsOrRat c.backoffFactor 2
      strategy := jsOrStr c.strategy "exponential" }
  { maxAttempts := c.maxAttempts.getD base.maxAttempts
    initialDelay := c.initialDelay.getD base.initialDelay
    maxDelay := c.maxDelay.getD base.maxDelay
    backoffFactor := c.backoffFactor.getD base.backoffFactor
    strategy := c.strategy.getD base.strategy }

/-- `RetryService.calculateDelay`: switch on `config.strategy`, with the
`default` arm an exponential backoff with factor 2. -/
def calculateDelay (cfg : RetryConfig) (attempt : Nat) : ℚ :=
  match cfg.strategy with
  | "exponential" => min (cfg.initialDelay * cfg.backoffFactor ^ (attempt - 1)) cfg.maxDelay
  | "linear" => min (cfg.initialDelay * (attempt : ℚ)) cfg.maxDelay
  | "fixed" => cfg.initialDelay
  | _ => min (cfg.initialDelay * 2 ^ (attempt - 1)) cfg.maxDelay

/-- One constructor per `emitEvent` call site of `RetryService`, carrying
the payload fields the verified properties mention. -/
inductive REvent (E T : Type) where
  | attempt (n : Nat) (maxAttempts : Int)
  | success (n : Nat) (result : T)
  | failed (n : Nat) (error : E)
  | scheduled (n nextAttempt : Nat) (delay : ℚ)
  | exhausted (maxAttempts : Int) (error : E)
  | queueItemFailed (retryCount : Nat) (error : Option E)
deriving DecidableEq

namespace REvent

variable {E T : Type}

def isAttempt : REvent E T → Bool
  | .attempt _ _ => true
  | _ => false

def isSuccess : REvent E T → Bool
  | .success _ _ => true
  | _ => false

def isFailed : REvent E T → Bool
  | .failed _ _ => true
  | _ => false

def isScheduled : REvent E T → Bool
  | .scheduled _ _ _ => true
  | _ => false

def isExhausted : REvent E T → Bool
  | .exhausted _ _ => true
  | _ => false

def isQueueItemFailed : REvent E T → Bool
  | .queueItemFailed _ _ => true
  | _ => false

end REvent

variable {E T : Type}

/-- The body of `executeWithRetry`'s `while (attempt < maxAttempts)` loop.
`remaining` is the number of loop iterations still permitted
(`maxAttempts - attempt`), so the loop guard is `remaining ≠ 0` and the
source's last-attempt test `attempt === maxAttempts` is `remaining = 1`
(here: the inner `k = 0` after matching `k+1`), which coincide whenever the
loop body runs at all.  `attempt` and `lastError` are the loop variables;
the pair returned is (events published, returned value or thrown value). -/
def retryLoop (op : Nat → Except E T) (cfg : RetryConfig) :
    Nat → Nat → Option E → List (REvent E T) × Except (Option E) T
  | 0, _, lastError => ([], .error lastError)
  | k + 1, attempt, _ =>
    let a := attempt + 1
    match op a with
    | .ok r => ([.attempt a cfg.maxAttempts, .success a r], .ok r)
    | .error e =>
      if k = 0 then
        ([.attempt a cfg.maxAttempts, .failed a e, .exhausted cfg.maxAttempts e],
          .error (some e))
      else
        let d := calculateDelay cfg a
        let rest := retryLoop op cfg k a (some e)
        (.attempt a cfg.maxAttempts :: .failed a e :: .scheduled a (a + 1) d :: rest.1,
          rest.2)

/-- `RetryService.executeWithRetry`: `attempt` starts at 0, `lastError` is
undefined, and the loop runs while `attempt < config.maxAttempts`, i.e. for
`maxAttempts.toNat` iterations unless an attempt succeeds. -/
def executeWithRetry (op : Nat → Except E T) (cfg : RetryConfig) :
    List (REvent E T) × Except (Option E) T :=
  retryLoop op cfg cfg.maxAttempts.toNat 0 none

/-- The retry context object threaded through queued retries; the queue
processor reads and writes its `retryCount` field, absent (`none`) until
the first failed drain attempt. -/
structure RetryContext where
  retryCount : Option Nat
deriving DecidableEq

/-- A `RetryQueueItem`: `{operation, context, config, createdAt}` as built
by `queueForRetry` (`createdAt` is not modelled: no property reads it). -/
structure RetryQueueItem (E T : Type) where
  operation : Nat → Except E T
  context : RetryContext
  config : RetryConfig

/-- The body of `processRetryQueue`'s `for` loop on one item: run
`executeWithRetry`; on success the item is removed (`none`); on failure
`context.retryCount` becomes `(retryCount || 0) + 1`, and if it now
reaches `config.maxAttempts` the item is removed and a
`retry:queue:item:failed` event is published, otherwise the mutated item
stays queued. -/
def processQueueItem (item : RetryQueueItem E T) :
    Option (RetryQueueItem E T) × List (REvent E T) :=
  let run := executeWithRetry item.operation item.config
  match run.2 with
  | .ok _ => (none, run.1)
  | .error e =>
    let rc := item.context.retryCount.getD 0 + 1
    if item.config.maxAttempts ≤ (rc : Int) then
      (none, run.1 ++ [.queueItemFailed rc e])
    else
      (some { item with context := { retryCount := some rc } }, run.1)

/-- `RetryService.processRetryQueue` over the snapshot of pending items.
Modelled from the spec: the `RetryQueue` store (`add` / `getPending` /
`remove`) is not under `src/`; per spec §4.4 `getPending` returns the
pending items in insertion order and `remove` removes by identity, so the
queue is a list, the drained snapshot is that list, and removal drops the
item from the resulting queue.  Returns (queue after the drain, events). -/
def processRetryQueue : List (RetryQueueItem E T) →
    List (RetryQueueItem E T) × List (REvent E T)
  | [] => ([], [])
  | item :: rest =>
    let step := processQueueItem item
    let tail := processRetryQueue rest
    (step.1.toList ++ tail.1, step.2 ++ tail.2)

/-! ## Event emitter (`CheckoutEventEmitter.emitEvent`) -/

/-- The `_metadata` object stamped onto every published event. -/
structure EventMetadata where
  event : String
  timestamp : String
  source : String
deriving DecidableEq

/-- A field value of an event payload: either an ordinary caller value or
a metadata object. -/
inductive FieldVal (V : Type) where
  | val (v : V)
  | meta (m : EventMetadata)
deriving DecidableEq

/-- `CheckoutEventEmitter.emitEvent`'s payload construction
`{...data, _metadata: {event, timestamp, source: 'checkout-core'}}`: the
spread keeps every field of `data`, and the trailing `_metadata` entry
overwrites any `_metadata` the caller supplied.  A payload object is
modelled as a partial map from field name to value. -/
def emitEvent {V : Type} (event timestamp : String)
    (data : String → Option (FieldVal V)) : String → Option (FieldVal V) :=
  fun k =>
    if k = "_metadata" then some (.meta ⟨event, timestamp, "checkout-core"⟩)
    else data k

/-! ## Webhook pipeline (`WebhookHandler`) -/

/-- `WebhookVerificationResult` restricted to the fields the pipeline
reads: `valid` and the optional `error` string. -/
structure WebhookVerificationResult where
  valid : Bool
  error : Option String
deriving DecidableEq

/-- A provider payload, restricted to the fields `mapProviderEvent`
reads: `type` (stripe), `event_type` (paypal), `event` (default arm). -/
structure WebhookPayload where
  type : Option String
  event_type : Option String
  event : Option String
deriving DecidableEq

/-- One constructor per `emitEvent` call site of `WebhookHandler`. -/
inductive WEvent where
  | verificationFailed (provider : String) (error : Option String)
  | received (provider eventType : String)
  | routed (name provider originalEvent : String)
  | generic (provider eventType : String)
  | processed (provider eventType : String)
  | processingFailed (provider : String) (error : String)
deriving DecidableEq

namespace WEvent

/-- The event-bus name each pipeline event is published under. -/
def name : WEvent → String
  | .verificationFailed _ _ => "webhook:verification:failed"
  | .received _ _ => "webhook:received"
  | .routed n _ _ => n
  | .generic _ _ => "webhook:event"
  | .processed _ _ => "webhook:processed"
  | .processingFailed _ _ => "webhook:processing:failed"

end WEvent

/-- `WebhookHandler.getEventMap`: the per-provider mapping tables; an
unknown provider yields the empty map. -/
def getEventMap (provider : String) : List (String × String) :=
  match provider with
  | "stripe" =>
    [("payment_intent.succeeded", "payment:captured"),
     ("payment_intent.payment_failed", "payment:failed"),
     ("charge.refunded", "payment:refunded"),
     ("customer.subscription.created", "subscription:created"),
     ("customer.subscription.updated", "subscription:updated"),
     ("customer.subscription.deleted", "subscription:cancelled"),
     ("invoice.payment_succeeded", "subscription:invoice:paid"),
     ("invoice.payment_failed", "subscription:invoice:payment:failed")]
  | "paypal" =>
    [("PAYMENT.CAPTURE.COMPLETED", "payment:captured"),
     ("PAYMENT.CAPTURE.DENIED", "payment:declined"),
     ("PAYMENT.CAPTURE.REFUNDED", "payment:refunded"),
     ("BILLING.SUBSCRIPTION.ACTIVATED", "subscription:activated"),
     ("BILLING.SUBSCRIPTION.CANCELLED", "subscription:cancelled"),
     ("BILLING.SUBSCRIPTION.EXPIRED", "subscription:expired")]
  | _ => []

/-- `WebhookHandler.mapProviderEvent`: provider-specific extraction of the
event type from the payload, defaulting to "unknown" via JavaScript `||`
(so an empty-string field is also replaced). -/
def mapProviderEvent (provider : String) (payload : WebhookPayload) : String :=
  match provider with
  | "stripe" => jsOrStr payload.type "unknown"
  | "paypal" => jsOrStr payload.event_type "unknown"
  | _ => jsOrStr payload.event (jsOrStr payload.type "unknown")

/-- `WebhookHandler.routeWebhookEvent`: resolve the internal event name
through the provider's event map, falling back to
`webhook:PROVIDER:EVENTTYPE` (template literal with the bus delimiter),
then publish the resolved event followed by the generic `webhook:event`. -/
def routeWebhookEvent (provider eventType : String) : List WEvent :=
  let internalEvent :=
    ((getEventMap provider).lookup eventType).getD
      ("webhook:" ++ provider ++ ":" ++ eventType)
  [.routed internalEvent provider eventType, .generic provider eventType]

/-- `WebhookHandler.processWebhook`, with the verification outcome of
`verifyWebhook` supplied as an argument (the stripe signature check lives
in `utils/validation`, outside the modelled core; the pipeline only reads
`verification.valid` and `verification.error`).  On an invalid result the
handler publishes `webhook:verification:failed`, throws
`Webhook verification failed: ...`, and the surrounding catch publishes
`webhook:processing:failed` before re-throwing.  On a valid result it
publishes `webhook:received`, routes, then publishes `webhook:processed`. -/
def processWebhook (verification : WebhookVerificationResult)
    (provider : String) (payload : WebhookPayload) :
    List WEvent × Except String Unit :=
  if verification.valid then
    let eventType := mapProviderEvent provider payload
    (WEvent.received provider eventType ::
      routeWebhookEvent provider eventType ++ [.processed provider eventType],
      .ok ())
  else
    let msg := "Webhook verification failed: " ++ verification.error.getD "undefined"
    ([.verificationFailed provider verification.error,
      .processingFailed provider msg],
      .error msg)

/-! ## Theorems -/

/-- C4: for every attempt `a ≥ 1`, `calculateDelay` returns
`min(initialDelay * backoffFactor^(a-1), maxDelay)` for strategy
`exponential`, `min(initialDelay * a, maxDelay)` for `linear`,
`initialDelay` unconditionally for `fixed`, and for any unrecognized
strategy the exponential formula with backoff factor 2. -/
theorem calculateDelay_strategy_formulas (cfg : RetryConfig) (a : Nat) (ha : 1 ≤ a) :
    (cfg.strategy = "exponential" →
      calculateDelay cfg a =
        min (cfg.initialDelay * cfg.backoffFactor ^ (a - 1)) cfg.maxDelay) ∧
    (cfg.strategy = "linear" →
      calculateDelay cfg a = min (cfg.initialDelay * (a : ℚ)) cfg.maxDelay) ∧
    (cfg.strategy = "fixed" → calculateDelay cfg a = cfg.initialDelay) ∧
    (cfg.strategy ≠ "exponential" → cfg.strategy ≠ "linear" → cfg.strategy ≠ "fixed" →
      calculateDelay cfg a = min (cfg.initialDelay * 2 ^ (a - 1)) cfg.maxDelay) := by
  refine ⟨fun h => by simp [calculateDelay, h], fun h => by simp [calculateDelay, h],
    fun h => by simp [calculateDelay, h], fun h1 h2 h3 => ?_⟩
  unfold calculateDelay
  split <;> simp_all

/-- C4 witness: the linear formula at a concrete config and attempt 2. -/
theorem calculateDelay_strategy_formulas_witness :
    (1 : Nat) ≤ 2 ∧
      calculateDelay ⟨3, 10, 15, 2, "linear"⟩ 2 =
        min ((10 : ℚ) * (2 : Nat)) 15 :=
  ⟨by decide, (calculateDelay_strategy_formulas ⟨3, 10, 15, 2, "linear"⟩ 2 (by decide)).2.1 rfl⟩

/-- C5: under the documented config contract (`initialDelay ≥ 0`,
`maxDelay ≥ initialDelay`, `backoffFactor > 1`) and for a recognized
strategy, every delay is at most `maxDelay`, and for `exponential` and
`linear` the delay is non-decreasing in the attempt number. -/
theorem calculateDelay_bounded_and_monotone (cfg : RetryConfig)
    (h0 : 0 ≤ cfg.initialDelay) (h1 : cfg.initialDelay ≤ cfg.maxDelay)
    (hb : 1 < cfg.backoffFactor)
    (hs : cfg.strategy = "exponential" ∨ cfg.strategy = "linear" ∨ cfg.strategy = "fixed")
    (a b : Nat) (ha : 1 ≤ a) (hab : a ≤ b) (hbnd : (b : Int) ≤ cfg.maxAttempts) :
    calculateDelay cfg a ≤ cfg.maxDelay ∧
    ((cfg.strategy = "exponential" ∨ cfg.strategy = "linear") →
      calculateDelay cfg a ≤ calculateDelay cfg b) := by
  rcases hs with h | h | h
  · refine ⟨by simp [calculateDelay, h, min_le_right], fun _ => ?_⟩
    simp only [calculateDelay, h]
    refine min_le_min (mul_le_mul_of_nonneg_left ?_ h0) le_rfl
    exact pow_le_pow_right₀ hb.le (by omega)
  · refine ⟨by simp [calculateDelay, h, min_le_right], fun _ => ?_⟩
    simp only [calculateDelay, h]
    refine min_le_min (mul_le_mul_of_nonneg_left ?_ h0) le_rfl
    exact_mod_cast hab
  · refine ⟨by simp [calculateDelay, h, h1], fun hc => ?_⟩
    rcases hc with hc | hc <;> rw [h] at hc <;> simp at hc

/-- C5 witness: bound and monotonicity at a concrete exponential config,
attempts 1 and 2. -/
theorem calculateDelay_bounded_and_monotone_witness :
    calculateDelay ⟨3, 10, 15, 2, "exponential"⟩ 1 ≤ (15 : ℚ) ∧
      calculateDelay ⟨3, 10, 15, 2, "exponential"⟩ 1 ≤
        calculateDelay ⟨3, 10, 15, 2, "exponential"⟩ 2 := by
  have h := calculateDelay_bounded_and_monotone ⟨3, 10, 15, 2, "exponential"⟩
    (by norm_num) (by norm_num) (by norm_num) (Or.inl rfl) 1 2 (by decide) (by decide)
    (by decide)
  exact ⟨h.1, h.2 (Or.inl rfl)⟩

/-- Helper: as long as at least one loop iteration is permitted, the loop
publishes exactly one `retry:success` event when it returns a value, and
exactly one `retry:exhausted` event when it throws. -/
theorem retryLoop_counts (op : Nat → Except E T) (cfg : RetryConfig) :
    ∀ n, 1 ≤ n → ∀ attempt le,
      ((retryLoop op cfg n attempt le).2.isOk = true →
        (retryLoop op cfg n attempt le).1.countP REvent.isSuccess = 1) ∧
      ((retryLoop op cfg n attempt le).2.isOk = false →
        (retryLoop op cfg n attempt le).1.countP REvent.isExhausted = 1) := by
  intro n
  induction n with
  | zero => omega
  | succ k ih =>
    intro _ attempt le
    cases hop : op (attempt + 1) with
    | ok r =>
      simp [retryLoop, hop, List.countP_cons, REvent.isSuccess, REvent.isExhausted,
        Except.isOk, Except.toBool]
    | error e =>
      cases k with
      | zero =>
        simp [retryLoop, hop, List.countP_cons, REvent.isSuccess, REvent.isExhausted,
          Except.isOk, Except.toBool]
      | succ m =>
        have h := ih (by omega) (attempt + 1) (some e)
        simp only [retryLoop, hop, List.countP_cons, REvent.isSuccess, REvent.isExhausted,
          Nat.succ_ne_zero, if_false, reduceCtorEq] at h ⊢
        simpa using h

/-- C1: whenever `executeWithRetry` (with `maxAttempts ≥ 1`) returns
successfully it has published exactly one `retry:success` event, and
whenever it raises a final failure it has published exactly one
`retry:exhausted` event. -/
theorem executeWithRetry_one_success_or_exhausted (op : Nat → Except E T)
    (cfg : RetryConfig) (h : 1 ≤ cfg.maxAttempts) :
    ((executeWithRetry op cfg).2.isOk = true →
      (executeWithRetry op cfg).1.countP REvent.isSuccess = 1) ∧
    ((executeWithRetry op cfg).2.isOk = false →
      (executeWithRetry op cfg).1.countP REvent.isExhausted = 1) :=
  retryLoop_counts op cfg cfg.maxAttempts.toNat (by omega) 0 none

/-- C1 witness: a single-attempt config with an immediately succeeding
operation publishes exactly one `retry:success`. -/
theorem executeWithRetry_one_success_or_exhausted_witness :
    (1 : Int) ≤ 1 ∧
      (executeWithRetry (E := String) (fun _ => .ok 42) ⟨1, 1, 5, 2, "fixed"⟩).1.countP
        REvent.isSuccess = 1 :=
  ⟨by decide,
    (executeWithRetry_one_success_or_exhausted (E := String) (fun _ => .ok 42)
      ⟨1, 1, 5, 2, "fixed"⟩ (by decide)).1 rfl⟩

/-- C2: with `maxAttempts = 3` and an always-failing operation,
`executeWithRetry` publishes exactly the trace
`attempt, failed, scheduled, attempt, failed, scheduled, attempt, failed,
exhausted` (3 attempts, 3 failures, 2 schedulings, 1 exhaustion, in that
order) and re-raises the error observed on the 3rd attempt. -/
theorem executeWithRetry_always_fails_three (err : Nat → E) (cfg : RetryConfig)
    (h : cfg.maxAttempts = 3) :
    executeWithRetry (T := T) (fun a => .error (err a)) cfg =
      ([.attempt 1 3, .failed 1 (err 1), .scheduled 1 2 (calculateDelay cfg 1),
        .attempt 2 3, .failed 2 (err 2), .scheduled 2 3 (calculateDelay cfg 2),
        .attempt 3 3, .failed 3 (err 3), .exhausted 3 (err 3)],
        .error (some (err 3))) ∧
    (executeWithRetry (T := T) (fun a => .error (err a)) cfg).1.countP
        REvent.isAttempt = 3 ∧
    (executeWithRetry (T := T) (fun a => .error (err a)) cfg).1.countP
        REvent.isFailed = 3 ∧
    (executeWithRetry (T := T) (fun a => .error (err a)) cfg).1.countP
        REvent.isScheduled = 2 ∧
    (executeWithRetry (T := T) (fun a => .error (err a)) cfg).1.countP
        REvent.isExhausted = 1 := by
  obtain ⟨ma, idl, mdl, bf, strat⟩ := cfg
  simp only [RetryConfig.mk.injEq] at h
  subst h
  refine ⟨rfl, ?_, ?_, ?_, ?_⟩ <;>
    simp [executeWithRetry, retryLoop, List.countP_cons, REvent.isAttempt,
      REvent.isFailed, REvent.isScheduled, REvent.isExhausted]

/-- C2 witness: the trace at a concrete fixed-delay config and concrete
errors. -/
theorem executeWithRetry_always_fails_three_witness :
    executeWithRetry (T := Nat) (fun a => .error (toString a)) ⟨3, 7, 9, 2, "fixed"⟩ =
      ([.attempt 1 3, .failed 1 "1", .scheduled 1 2 7,
        .attempt 2 3, .failed 2 "2", .scheduled 2 3 7,
        .attempt 3 3, .failed 3 "3", .exhausted 3 "3"],
        .error (some "3")) :=
  (executeWithRetry_always_fails_three (T := Nat) (fun a => toString a)
    ⟨3, 7, 9, 2, "fixed"⟩ rfl).1

/-- C6: an operation that fails on the first invocation and succeeds on
the second, run with `maxAttempts ≥ 2`, produces exactly the trace
`attempt, failed, scheduled, attempt, success` (2 attempts, 1 failure,
1 scheduling, 1 success) and returns the successful result; nothing
follows the success event. -/
theorem executeWithRetry_fail_once_then_succeed (op : Nat → Except E T) (e : E)
    (r : T) (cfg : RetryConfig) (h1 : op 1 = .error e) (h2 : op 2 = .ok r)
    (h : 2 ≤ cfg.maxAttempts) :
    executeWithRetry op cfg =
      ([.attempt 1 cfg.maxAttempts, .failed 1 e, .scheduled 1 2 (calculateDelay cfg 1),
        .attempt 2 cfg.maxAttempts, .success 2 r], .ok r) := by
  obtain ⟨k, hk⟩ : ∃ k, cfg.maxAttempts.toNat = k + 2 :=
    ⟨cfg.maxAttempts.toNat - 2, by omega⟩
  unfold executeWithRetry
  rw [hk]
  show retryLoop op cfg (k + 1 + 1) 0 none = _
  simp [retryLoop, h1, h2]

/-- C6 witness: the fail-once-then-succeed trace at a concrete config. -/
theorem executeWithRetry_fail_once_then_succeed_witness :
    executeWithRetry (fun a => if a = 2 then .ok 42 else .error "boom")
        ⟨2, 7, 9, 2, "fixed"⟩ =
      ([.attempt 1 2, .failed 1 "boom", .scheduled 1 2 7,
        .attempt 2 2, .success 2 42], .ok 42) :=
  executeWithRetry_fail_once_then_succeed
    (fun a => if a = 2 then .ok 42 else .error "boom") "boom" 42
    ⟨2, 7, 9, 2, "fixed"⟩ rfl rfl (by decide)

/-- C10: a `RetryService` built from a partial config that explicitly
supplies a non-positive `maxAttempts` keeps that value (the trailing
`...config` spread re-applies it after the `|| 3` defaulting), and
`executeWithRetry` then never invokes the operation (the result is the
same for every operation), publishes no events, and throws the undefined
`lastError` (modelled as `none`). -/
theorem executeWithRetry_nonpositive_maxAttempts (c : PartialRetryConfig)
    (m : Int) (hm : c.maxAttempts = some m) (hm0 : m ≤ 0)
    (op : Nat → Except E T) :
    (mkRetryConfig c).maxAttempts = m ∧
    executeWithRetry op (mkRetryConfig c) = ([], .error none) := by
  have h1 : (mkRetryConfig c).maxAttempts = m := by simp [mkRetryConfig, hm]
  have h2 : (mkRetryConfig c).maxAttempts.toNat = 0 := by omega
  exact ⟨h1, by unfold executeWithRetry; rw [h2]; rfl⟩

/-- C10 witness: `maxAttempts: 0` supplied explicitly, with a
concrete (never-invoked) operation. -/
theorem executeWithRetry_nonpositive_maxAttempts_witness :
    (mkRetryConfig ⟨some 0, none, none, none, none⟩).maxAttempts = 0 ∧
      executeWithRetry (E := String) (fun _ => .ok 42)
        (mkRetryConfig ⟨some 0, none, none, none, none⟩) = ([], .error none) :=
  executeWithRetry_nonpositive_maxAttempts ⟨some 0, none, none, none, none⟩ 0
    rfl (by decide) (fun _ => .ok 42)

/-- Helper: the inline retry loop never publishes a
`retry:queue:item:failed` event — that event is exclusive to the queue
processor. -/
theorem retryLoop_no_queueItemFailed (op : Nat → Except E T) (cfg : RetryConfig) :
    ∀ n attempt le,
      (retryLoop op cfg n attempt le).1.countP REvent.isQueueItemFailed = 0 := by
  intro n
  induction n with
  | zero => intro attempt le; rfl
  | succ k ih =>
    intro attempt le
    cases hop : op (attempt + 1) with
    | ok r => simp [retryLoop, hop, List.countP_cons, REvent.isQueueItemFailed]
    | error e =>
      cases k with
      | zero => simp [retryLoop, hop, List.countP_cons, REvent.isQueueItemFailed]
      | succ m =>
        have h := ih (attempt + 1) (some e)
        simp only [retryLoop, hop, List.countP_cons, REvent.isQueueItemFailed,
          Nat.succ_ne_zero, if_false, reduceCtorEq] at h ⊢
        simpa using h

/-- C7: one drain cycle over a queued item removes it when the inner
`executeWithRetry` succeeds; when it fails, `context.retryCount` becomes
its old value (defaulting to 0) plus one, and then either the item is
removed and exactly one `retry:queue:item:failed` event is published
(when the new count reaches `config.maxAttempts`) or the item stays
queued with the incremented count. -/
theorem processRetryQueue_item_lifecycle (item : RetryQueueItem E T) :
    ((executeWithRetry item.operation item.config).2.isOk = true →
      processRetryQueue [item] = ([], (executeWithRetry item.operation item.config).1)) ∧
    (∀ e, (executeWithRetry item.operation item.config).2 = .error e →
      (item.config.maxAttempts ≤ ((item.context.retryCount.getD 0 + 1 : Nat) : Int) →
        processRetryQueue [item] =
          ([], (executeWithRetry item.operation item.config).1 ++
            [.queueItemFailed (item.context.retryCount.getD 0 + 1) e]) ∧
        (processRetryQueue [item]).2.countP REvent.isQueueItemFailed = 1) ∧
      (((item.context.retryCount.getD 0 + 1 : Nat) : Int) < item.config.maxAttempts →
        processRetryQueue [item] =
          ([{ item with context := ⟨some (item.context.retryCount.getD 0 + 1)⟩ }],
            (executeWithRetry item.operation item.config).1))) := by
  constructor
  · intro hok
    cases hrun : (executeWithRetry item.operation item.config).2 with
    | ok t =>
      simp [processRetryQueue, processQueueItem, hrun]
    | error e => rw [hrun] at hok; simp [Except.isOk, Except.toBool] at hok
  · intro e herr
    constructor
    · intro hge
      have hge' : item.config.maxAttempts ≤
          (item.context.retryCount.getD 0 : Int) + 1 := by exact_mod_cast hge
      have hq : processRetryQueue [item] =
          ([], (executeWithRetry item.operation item.config).1 ++
            [.queueItemFailed (item.context.retryCount.getD 0 + 1) e]) := by
        simp [processRetryQueue, processQueueItem, herr, hge']
      refine ⟨hq, ?_⟩
      rw [hq]
      have h0 := retryLoop_no_queueItemFailed item.operation item.config
        item.config.maxAttempts.toNat 0 none
      simp [List.countP_append, List.countP_cons, REvent.isQueueItemFailed,
        executeWithRetry] at h0 ⊢
      exact h0
    · intro hlt
      have hlt' : (item.context.retryCount.getD 0 : Int) + 1 <
          item.config.maxAttempts := by exact_mod_cast hlt
      simp [processRetryQueue, processQueueItem, herr, not_le.mpr hlt']

/-- C7 witness: an always-failing item with `maxAttempts = 1` is removed
by one drain cycle and exactly one `retry:queue:item:failed` event is
published. -/
theorem processRetryQueue_item_lifecycle_witness :
    processRetryQueue
        [(⟨fun _ => .error "boom", ⟨none⟩, ⟨1, 7, 9, 2, "fixed"⟩⟩ :
          RetryQueueItem String Nat)] =
      ([], [.attempt 1 1, .failed 1 "boom", .exhausted 1 "boom",
        .queueItemFailed 1 (some "boom")]) :=
  (((processRetryQueue_item_lifecycle
      (⟨fun _ => .error "boom", ⟨none⟩, ⟨1, 7, 9, 2, "fixed"⟩⟩ :
        RetryQueueItem String Nat)).2 (some "boom") rfl).1 (by decide)).1

/-- C8: when verification yields `valid: false`, `processWebhook`
publishes exactly `webhook:verification:failed` followed by
`webhook:processing:failed` (the failure event precedes the re-raise),
fails with the verification error, and publishes no `webhook:received`
and no `webhook:processed` event. -/
theorem processWebhook_invalid_signature (v : WebhookVerificationResult)
    (provider : String) (payload : WebhookPayload) (hv : v.valid = false) :
    processWebhook v provider payload =
      ([.verificationFailed provider v.error,
        .processingFailed provider
          ("Webhook verification failed: " ++ v.error.getD "undefined")],
        .error ("Webhook verification failed: " ++ v.error.getD "undefined")) ∧
    (processWebhook v provider payload).1.countP
        (fun ev => ev.name == "webhook:received") = 0 ∧
    (processWebhook v provider payload).1.countP
        (fun ev => ev.name == "webhook:processed") = 0 ∧
    (processWebhook v provider payload).1.countP
        (fun ev => ev.name == "webhook:verification:failed") = 1 ∧
    (processWebhook v provider payload).1.countP
        (fun ev => ev.name == "webhook:processing:failed") = 1 := by
  refine ⟨?_, ?_, ?_, ?_, ?_⟩ <;>
    simp [processWebhook, hv, List.countP_cons, WEvent.name]

/-- C8 witness: a concrete invalid stripe verification result. -/
theorem processWebhook_invalid_signature_witness :
    processWebhook ⟨false, some "bad signature"⟩ "stripe" ⟨some "x", none, none⟩ =
      ([.verificationFailed "stripe" (some "bad signature"),
        .processingFailed "stripe" "Webhook verification failed: bad signature"],
        .error "Webhook verification failed: bad signature") :=
  (processWebhook_invalid_signature ⟨false, some "bad signature"⟩ "stripe"
    ⟨some "x", none, none⟩ rfl).1

/-- C3 counterexample: for the unmapped stripe event type
`"something.new"` the routed internal event name is
`"webhook:stripe:something.new"`, not `"stripe:something.new"` as the
claim states; no published event carries the claimed name. -/
theorem routeWebhookEvent_fallback_counterexample :
    routeWebhookEvent "stripe" "something.new" =
      [.routed "webhook:stripe:something.new" "stripe" "something.new",
        .generic "stripe" "something.new"] ∧
    ((routeWebhookEvent "stripe" "something.new").map WEvent.name).contains
        "stripe:something.new" = false ∧
    "webhook:stripe:something.new" ≠ "stripe:something.new" := by
  refine ⟨rfl, rfl, by decide⟩

/-- C3 (amended): for every provider and event type with no entry in the
provider's event map, routing a verified webhook publishes the internal
event named `webhook:` + provider + `:` + event type (provider and raw
event type joined by the bus delimiter under the `webhook:` prefix),
followed by the generic `webhook:event` — routing never fails. -/
theorem routeWebhookEvent_unmapped_fallback (provider eventType : String)
    (h : (getEventMap provider).lookup eventType = none) :
    routeWebhookEvent provider eventType =
      [.routed ("webhook:" ++ provider ++ ":" ++ eventType) provider eventType,
        .generic provider eventType] := by
  simp [routeWebhookEvent, h]

/-- C3 witness: the stripe `"something.new"` fallback. -/
theorem routeWebhookEvent_unmapped_fallback_witness :
    routeWebhookEvent "stripe" "something.new" =
      [.routed ("webhook:" ++ "stripe" ++ ":" ++ "something.new") "stripe"
        "something.new", .generic "stripe" "something.new"] :=
  routeWebhookEvent_unmapped_fallback "stripe" "something.new" rfl

/-- C9: the payload delivered by `emitEvent` agrees with the caller's
payload on every field other than `_metadata`, and its `_metadata` field
is always `{event, timestamp, source: 'checkout-core'}`, overwriting any
caller-supplied `_metadata`. -/
theorem emitEvent_metadata_frame {V : Type} (event timestamp : String)
    (data : String → Option (FieldVal V)) (k : String) :
    (k ≠ "_metadata" → emitEvent event timestamp data k = data k) ∧
    emitEvent event timestamp data "_metadata" =
      some (.meta ⟨event, timestamp, "checkout-core"⟩) :=
  ⟨fun h => by simp [emitEvent, h], by simp [emitEvent]⟩

/-- C9 witness: a concrete payload with an `amount` field and a
caller-supplied `_metadata` field that gets overwritten. -/
theorem emitEvent_metadata_frame_witness :
    ("amount" : String) ≠ "_metadata" ∧
      emitEvent (V := Nat) "payment:captured" "t0"
        (fun k => if k = "amount" then some (.val 5)
          else if k = "_metadata" then some (.val 99) else none) "amount" =
        some (.val 5) ∧
      emitEvent (V := Nat) "payment:captured" "t0"
        (fun k => if k = "amount" then some (.val 5)
          else if k = "_metadata" then some (.val 99) else none) "_metadata" =
        some (.meta ⟨"payment:captured", "t0", "checkout-core"⟩) :=
  ⟨by decide,
    ((emitEvent_metadata_frame (V := Nat) "payment:captured" "t0"
      (fun k => if k = "amount" then some (.val 5)
        else if k = "_metadata" then some (.val 99) else none) "amount").1
      (by decide)).trans rfl,
    (emitEvent_metadata_frame (V := Nat) "payment:captured" "t0"
      (fun k => if k = "amount" then some (.val 5)
        else if k = "_metadata" then some (.val 99) else none) "amount").2⟩

end CheckoutCore
